import Mathlib

/-!
Verification of the segmentation / feature-extraction / aggregation pipeline of
the speech_portfolio repository (python_services/audio_processor.py and
python_services/cnn_analysis_service.py), as a shallow embedding in Lean.

Durations are modelled in integer milliseconds (pydub AudioSegment lengths are
integral milliseconds); float quantities of the source (overlap ratio,
confidences, probabilities, timestamps) are modelled as exact rationals.
-/

namespace SpeechPortfolio

/-! ## Segmenter (AudioProcessor.segment_audio_file, audio_processor.py lines 318-428)

`segment_audio_file` measures the clip (`duration_ms = len(audio)`), converts the
configured durations to ms, computes
`step_size_ms = int(segment_duration_ms * (1 - overlap_ratio))`, then either pads a
short clip (primary padding) and takes a single window, or takes
`max(1, int((duration_ms - segment_duration_ms) / step_size_ms) + 1)` overlapping
windows `[i*step, min(i*step + segment_duration_ms, duration_ms))`; each window then
gets the secondary padding of lines 377-387.
-/

/-- One window of `segment_audio_file`: its slice bounds into the (possibly
primary-padded) audio, and its final length after the secondary padding. -/
structure SegWindow where
  start_ms : Nat
  end_ms : Nat
  finalLen : Nat
  deriving DecidableEq

/-- `step_size_ms = int(segment_duration_ms * (1 - overlap_ratio))` (line 351);
`int()` truncates toward zero, which on the nonnegative value produced by a
validated overlap in `[0, 1)` is the floor. -/
def stepSizeMs (segMs : Nat) (overlap : ℚ) : Nat :=
  (((segMs : ℚ) * (1 - overlap)).floor).toNat

/-- The clip duration after primary padding (lines 353-360): only a clip with
`duration_ms <= segment_duration_ms` and `duration_ms < min_segment_duration_ms`
is extended with trailing silence, to exactly the minimum duration. -/
def effDurationMs (durMs segMs minMs : Nat) : Nat :=
  if durMs ≤ segMs then (if durMs < minMs then minMs else durMs) else durMs

/-- Number of windows (lines 353-365): one window for a short clip, otherwise
`max(1, int((duration_ms - segment_duration_ms) / step_size_ms) + 1)`. -/
def numSegments (durMs segMs stepMs : Nat) : Nat :=
  if durMs ≤ segMs then 1 else max 1 ((durMs - segMs) / stepMs + 1)

/-- Secondary per-window padding (lines 377-387): a window shorter than the
minimum duration is padded to the minimum; otherwise a window shorter than the
segment duration is padded to the full segment duration only when its natural
length is at least `segment_duration_ms * 0.8`. -/
def secondaryPad (lenMs segMs minMs : Nat) : Nat :=
  if lenMs < minMs then minMs
  else if lenMs < segMs then
    (if (segMs : ℚ) * (8 / 10) ≤ (lenMs : ℚ) then segMs else lenMs)
  else lenMs

/-- The windows produced by `segment_audio_file` (lines 343-412): window `i`
slices `audio[i*step : min(i*step + segment_duration_ms, duration_ms)]` of the
primary-padded audio and is then secondary-padded. -/
def segmentWindows (durMs segMs stepMs minMs : Nat) : List SegWindow :=
  (List.range (numSegments durMs segMs stepMs)).map fun i =>
    { start_ms := i * stepMs
      end_ms := min (i * stepMs + segMs) (effDurationMs durMs segMs minMs)
      finalLen :=
        secondaryPad (min (i * stepMs + segMs) (effDurationMs durMs segMs minMs) - i * stepMs)
          segMs minMs }

theorem numSegments_of_long (durMs segMs stepMs : Nat) (h : segMs < durMs) :
    numSegments durMs segMs stepMs = max 1 ((durMs - segMs) / stepMs + 1) := by
  unfold numSegments
  rw [if_neg (by omega)]

theorem effDurationMs_of_long (durMs segMs minMs : Nat) (h : segMs < durMs) :
    effDurationMs durMs segMs minMs = durMs := by
  unfold effDurationMs
  rw [if_neg (by omega)]

theorem segmentWindows_length (durMs segMs stepMs minMs : Nat) :
    (segmentWindows durMs segMs stepMs minMs).length = numSegments durMs segMs stepMs := by
  simp [segmentWindows]

theorem segmentWindows_getElem? (durMs segMs stepMs minMs i : Nat)
    (hi : i < numSegments durMs segMs stepMs) :
    (segmentWindows durMs segMs stepMs minMs)[i]? =
      some
        { start_ms := i * stepMs
          end_ms := min (i * stepMs + segMs) (effDurationMs durMs segMs minMs)
          finalLen :=
            secondaryPad
              (min (i * stepMs + segMs) (effDurationMs durMs segMs minMs) - i * stepMs)
              segMs minMs } := by
  unfold segmentWindows
  rw [List.getElem?_map, List.getElem?_range hi]
  rfl

/-- Claim C1: for a clip of duration `D` ms with `D > segment_duration_ms`, the
segmenter produces `max(1, floor((D - S) / step) + 1)` windows with
`step = floor(S * (1 - overlap_ratio))`, window `i` spanning
`[i*step, min(i*step + S, D))`, so no window end exceeds `D`.  The hypothesis
`0 < step` reflects that the source divides by `step_size_ms` (a zero step would
raise `ZeroDivisionError`, and the claim's own formula would be undefined). -/
theorem c1_window_count_and_spans (durMs segMs minMs : Nat) (overlap : ℚ)
    (hD : segMs < durMs) (h0 : 0 ≤ overlap) (h1 : overlap < 1)
    (hstep : 0 < stepSizeMs segMs overlap) :
    (segmentWindows durMs segMs (stepSizeMs segMs overlap) minMs).length =
        max 1 ((durMs - segMs) / stepSizeMs segMs overlap + 1) ∧
      (∀ i, i < (segmentWindows durMs segMs (stepSizeMs segMs overlap) minMs).length →
        ((segmentWindows durMs segMs (stepSizeMs segMs overlap) minMs)[i]?).map
              SegWindow.start_ms =
            some (i * stepSizeMs segMs overlap) ∧
          ((segmentWindows durMs segMs (stepSizeMs segMs overlap) minMs)[i]?).map
              SegWindow.end_ms =
            some (min (i * stepSizeMs segMs overlap + segMs) durMs)) ∧
      ∀ w ∈ segmentWindows durMs segMs (stepSizeMs segMs overlap) minMs, w.end_ms ≤ durMs := by
  refine ⟨?_, ?_, ?_⟩
  · rw [segmentWindows_length, numSegments_of_long _ _ _ hD]
  · intro i hi
    rw [segmentWindows_length] at hi
    rw [segmentWindows_getElem? _ _ _ _ _ hi, effDurationMs_of_long _ _ _ hD]
    exact ⟨rfl, rfl⟩
  · intro w hw
    unfold segmentWindows at hw
    rw [List.mem_map] at hw
    obtain ⟨i, _, rfl⟩ := hw
    rw [effDurationMs_of_long _ _ _ hD]
    exact min_le_right _ _

/-- Witness for C1 at the spec's concrete scenario A: `S = 3000` ms,
`overlap = 1/2`, `m = 1000` ms, `D = 7000` ms, so `step = 1500` ms. -/
theorem c1_window_count_and_spans_witness :
    ((3000 : Nat) < 7000 ∧ (0 : ℚ) ≤ 1 / 2 ∧ (1 : ℚ) / 2 < 1 ∧ 0 < stepSizeMs 3000 (1 / 2)) ∧
      ((segmentWindows 7000 3000 (stepSizeMs 3000 (1 / 2)) 1000).length =
          max 1 ((7000 - 3000) / stepSizeMs 3000 (1 / 2) + 1) ∧
        (∀ i, i < (segmentWindows 7000 3000 (stepSizeMs 3000 (1 / 2)) 1000).length →
          ((segmentWindows 7000 3000 (stepSizeMs 3000 (1 / 2)) 1000)[i]?).map
                SegWindow.start_ms =
              some (i * stepSizeMs 3000 (1 / 2)) ∧
            ((segmentWindows 7000 3000 (stepSizeMs 3000 (1 / 2)) 1000)[i]?).map
                SegWindow.end_ms =
              some (min (i * stepSizeMs 3000 (1 / 2) + 3000) 7000)) ∧
        ∀ w ∈ segmentWindows 7000 3000 (stepSizeMs 3000 (1 / 2)) 1000, w.end_ms ≤ 7000) :=
  ⟨⟨by norm_num, by norm_num, by norm_num, by norm_num [stepSizeMs, Rat.floor]⟩,
    c1_window_count_and_spans 7000 3000 1000 (1 / 2) (by norm_num) (by norm_num) (by norm_num)
      (by norm_num [stepSizeMs, Rat.floor])⟩

theorem segmentWindows_default_scenario :
    segmentWindows 7000 3000 1500 1000 =
      [⟨0, 3000, 3000⟩, ⟨1500, 4500, 3000⟩, ⟨3000, 6000, 3000⟩] := rfl

/-- Claim C2 exactly as stated: its three secondary-padding outcomes, the third
one carrying the claim's parenthetical range `[min_segment_duration,
0.8 * segment_duration)`. -/
def c2AsStated (segMs minMs : Nat) (w : SegWindow) : Prop :=
  (w.end_ms - w.start_ms < minMs ∧ w.finalLen = minMs) ∨
    (minMs ≤ w.end_ms - w.start_ms ∧ w.end_ms - w.start_ms < segMs ∧
      (segMs : ℚ) * (8 / 10) ≤ ((w.end_ms - w.start_ms : Nat) : ℚ) ∧ w.finalLen = segMs) ∨
    (minMs ≤ w.end_ms - w.start_ms ∧
      ((w.end_ms - w.start_ms : Nat) : ℚ) < (segMs : ℚ) * (8 / 10) ∧
      w.finalLen = w.end_ms - w.start_ms)

/-- Claim C2, counterexample: with the default configuration
(`S = 3000` ms, `step = 1500` ms, `m = 1000` ms) and a 7000 ms clip, the first
window has natural length exactly `3000 = segment_duration`, so none of the
claim's three outcomes holds for it: its natural length is not below `S`, and it
does not lie in `[m, 0.8*S)` either. -/
theorem c2_counterexample :
    ∃ w ∈ segmentWindows 7000 3000 1500 1000, ¬ c2AsStated 3000 1000 w := by
  refine ⟨⟨0, 3000, 3000⟩, ?_, ?_⟩
  · rw [segmentWindows_default_scenario]
    simp
  · norm_num [c2AsStated]

/-- Any window's natural (unpadded) length is at most the segment duration. -/
theorem natural_length_le_segMs (durMs segMs stepMs minMs : Nat) (w : SegWindow)
    (hw : w ∈ segmentWindows durMs segMs stepMs minMs) :
    w.end_ms - w.start_ms ≤ segMs := by
  unfold segmentWindows at hw
  rw [List.mem_map] at hw
  obtain ⟨i, _, rfl⟩ := hw
  dsimp only
  omega

/-- Claim C2 as amended: every window falls in exactly one of the three
branches of the secondary padding of lines 377-387, where the final (else)
branch covers natural lengths in `[min_segment_duration, 0.8*segment_duration)`
*or equal to* `segment_duration` (a full-length window, also left unpadded) —
the original claim omitted the full-length case.  The three disjuncts are
mutually exclusive by construction (each carries the negation of the previous
guards), so exactly one holds. -/
theorem c2_secondary_padding_amended (durMs segMs stepMs minMs : Nat) (hms : minMs ≤ segMs)
    (w : SegWindow) (hw : w ∈ segmentWindows durMs segMs stepMs minMs) :
    (w.end_ms - w.start_ms < minMs ∧ w.finalLen = minMs) ∨
      (¬ w.end_ms - w.start_ms < minMs ∧ w.end_ms - w.start_ms < segMs ∧
        (segMs : ℚ) * (8 / 10) ≤ ((w.end_ms - w.start_ms : Nat) : ℚ) ∧ w.finalLen = segMs) ∨
      (¬ w.end_ms - w.start_ms < minMs ∧
        ¬ (w.end_ms - w.start_ms < segMs ∧
            (segMs : ℚ) * (8 / 10) ≤ ((w.end_ms - w.start_ms : Nat) : ℚ)) ∧
        ((minMs ≤ w.end_ms - w.start_ms ∧
            ((w.end_ms - w.start_ms : Nat) : ℚ) < (segMs : ℚ) * (8 / 10)) ∨
          w.end_ms - w.start_ms = segMs) ∧
        w.finalLen = w.end_ms - w.start_ms) := by
  have hn : w.end_ms - w.start_ms ≤ segMs := natural_length_le_segMs _ _ _ _ _ hw
  have hfin : w.finalLen = secondaryPad (w.end_ms - w.start_ms) segMs minMs := by
    unfold segmentWindows at hw
    rw [List.mem_map] at hw
    obtain ⟨i, _, rfl⟩ := hw
    rfl
  set n := w.end_ms - w.start_ms with hn_def
  by_cases h1 : n < minMs
  · exact Or.inl ⟨h1, by rw [hfin]; unfold secondaryPad; rw [if_pos h1]⟩
  · by_cases h2 : n < segMs
    · by_cases h3 : (segMs : ℚ) * (8 / 10) ≤ (n : ℚ)
      · refine Or.inr (Or.inl ⟨h1, h2, h3, ?_⟩)
        rw [hfin]; unfold secondaryPad; rw [if_neg h1, if_pos h2, if_pos h3]
      · refine Or.inr (Or.inr ⟨h1, fun hc => h3 hc.2, Or.inl ⟨by omega, not_le.mp h3⟩, ?_⟩)
        rw [hfin]; unfold secondaryPad; rw [if_neg h1, if_pos h2, if_neg h3]
    · refine Or.inr (Or.inr ⟨h1, fun hc => h2 hc.1, Or.inr (by omega), ?_⟩)
      rw [hfin]; unfold secondaryPad; rw [if_neg h1, if_neg h2]

/-- Witness for the amended C2 at the first window of the default
scenario (`D = 7000`, `S = 3000`, `step = 1500`, `m = 1000`): the full-length
window, which lands (unpadded) in the amended third branch. -/
theorem c2_secondary_padding_amended_witness :
    ((1000 : Nat) ≤ 3000 ∧
        (⟨0, 3000, 3000⟩ : SegWindow) ∈ segmentWindows 7000 3000 1500 1000) ∧
      (((3000 : Nat) - 0 < 1000 ∧ (3000 : Nat) = 1000) ∨
        (¬ (3000 : Nat) - 0 < 1000 ∧ (3000 : Nat) - 0 < 3000 ∧
          ((3000 : Nat) : ℚ) * (8 / 10) ≤ (((3000 : Nat) - 0 : Nat) : ℚ) ∧
          (3000 : Nat) = 3000) ∨
        (¬ (3000 : Nat) - 0 < 1000 ∧
          ¬ ((3000 : Nat) - 0 < 3000 ∧
              ((3000 : Nat) : ℚ) * (8 / 10) ≤ (((3000 : Nat) - 0 : Nat) : ℚ)) ∧
          (((1000 : Nat) ≤ (3000 : Nat) - 0 ∧
              (((3000 : Nat) - 0 : Nat) : ℚ) < ((3000 : Nat) : ℚ) * (8 / 10)) ∨
            (3000 : Nat) - 0 = 3000) ∧
          (3000 : Nat) = (3000 : Nat) - 0)) :=
  ⟨⟨by norm_num, by rw [segmentWindows_default_scenario]; simp⟩,
    c2_secondary_padding_amended 7000 3000 1500 1000 (by norm_num) ⟨0, 3000, 3000⟩
      (by rw [segmentWindows_default_scenario]; simp)⟩

/-! ## ClassifierAdapter (CNNModelPredictor, audio_processor.py lines 430-626)

`predict_image` turns one spectrogram image into a class-probability mapping
over the configured class list; `predict_spectrograms` maps it over all
spectrograms, converting per-window exceptions into error-tagged entries.
Spectrogram paths are abstracted as natural numbers, and the classifier backend
as a function from a path to either a probability vector or an error message.
-/

/-- Default class list of `CNNModelPredictor._load_class_names` (lines 442-454). -/
def defaultClassNames : List String := ["blocks", "prolongations", "repetitions"]

/-- Result of `predict_image`: the class-to-probability mapping (a Python dict
built in class-list order) plus whether the length-mismatch warning of lines
576-577 was logged. -/
structure PredictImageOut where
  probs : List (String × ℚ)
  mismatchWarned : Bool
  deriving DecidableEq

/-- The dict-building loop of `predict_image` (lines 579-585): class `i` maps to
`predictions[0][i]` when the vector is long enough and to `0.0` otherwise. -/
def padProbs (preds : List ℚ) : Nat → List String → List (String × ℚ)
  | _, [] => []
  | i, c :: cs => (c, preds.getD i 0) :: padProbs preds (i + 1) cs

/-- `CNNModelPredictor.predict_image` (lines 519-590), after successful image
loading and model inference, modelled on the returned probability vector: an
empty vector raises `ValueError` (line 573-574); otherwise each configured class
receives its entry, padded with `0.0` past the end of the vector, and a length
mismatch is logged as a warning. -/
def predict_image (classNames : List String) (preds : List ℚ) : Except String PredictImageOut :=
  if preds.isEmpty then .error "Invalid predictions from model"
  else .ok { probs := padProbs preds 0 classNames
             mismatchWarned := preds.length != classNames.length }

/-- Python's `max(mapping, key=mapping.get)` over an association list built in
insertion order: the first key attaining the maximal value (`max` keeps the
current candidate unless a strictly greater value appears). -/
def maxByValue {β : Type} [LinearOrder β] : List (String × β) → Option (String × β)
  | [] => none
  | (k, v) :: rest =>
    match maxByValue rest with
    | none => some (k, v)
    | some (k2, v2) => if v < v2 then some (k2, v2) else some (k, v)

/-- One entry of the list returned by `predict_spectrograms` (lines 592-626):
the per-segment dict, whose `error` key is present exactly when classifying that
segment raised. -/
structure SegmentRecord where
  segment_index : Nat
  predictions : Option (List (String × ℚ))
  predicted_class : Option String
  confidence : Option ℚ
  error : Option String
  timestamp_start : ℚ
  timestamp_end : ℚ
  deriving DecidableEq

/-- The successful-branch record of `predict_spectrograms` (lines 603-611):
note the hard-coded `timestamp_start = i * 5.0`, `timestamp_end = (i + 1) * 5.0`. -/
def mkSuccessRecord (i : Nat) (preds : List (String × ℚ)) (cls : String) (conf : ℚ) :
    SegmentRecord :=
  { segment_index := i + 1
    predictions := some preds
    predicted_class := some cls
    confidence := some conf
    error := none
    timestamp_start := (i : ℚ) * 5
    timestamp_end := ((i : ℚ) + 1) * 5 }

/-- The error-branch record of `predict_spectrograms` (lines 616-624). -/
def mkErrorRecord (i : Nat) (e : String) : SegmentRecord :=
  { segment_index := i + 1
    predictions := none
    predicted_class := none
    confidence := none
    error := some e
    timestamp_start := (i : ℚ) * 5
    timestamp_end := ((i : ℚ) + 1) * 5 }

/-- Processing of one spectrogram inside the loop of `predict_spectrograms`:
a classifier failure is caught and recorded; on success the argmax class and its
probability are recorded (an empty mapping would make Python's `max` raise,
which the same handler catches). -/
def predictRecord (clf : Nat → Except String (List (String × ℚ))) (i p : Nat) : SegmentRecord :=
  match clf p with
  | .error e => mkErrorRecord i e
  | .ok preds =>
    match maxByValue preds with
    | none => mkErrorRecord i "max() arg is an empty sequence"
    | some (cls, conf) => mkSuccessRecord i preds cls conf

/-- The indexed loop of `predict_spectrograms`. -/
def predictFrom (clf : Nat → Except String (List (String × ℚ))) :
    Nat → List Nat → List SegmentRecord
  | _, [] => []
  | i, p :: ps => predictRecord clf i p :: predictFrom clf (i + 1) ps

/-- `CNNModelPredictor.predict_spectrograms` (lines 592-626): one record per
input spectrogram, in input order. -/
def predict_spectrograms (clf : Nat → Except String (List (String × ℚ)))
    (paths : List Nat) : List SegmentRecord :=
  predictFrom clf 0 paths

/-! ## Aggregator (coarse mode): CNNAnalysisService._format_results_for_flutter
(cnn_analysis_service.py lines 305-360) and the summary statistics of
process_audio_file (audio_processor.py lines 694-723). -/

/-- A coarse-mode Event as built at cnn_analysis_service.py lines 319-328. -/
structure Event where
  type : String
  confidence : ℚ
  probability : Int
  seconds : Int
  t0 : Int
  t1 : Int
  deriving DecidableEq

/-- Python `int()` on a float: truncation toward zero. -/
def intTrunc (q : ℚ) : Int := if 0 ≤ q then q.floor else q.ceil

/-- The event dict built from one successful segment record (lines 319-328). -/
def eventOfRecord (s : SegmentRecord) : Event :=
  { type := s.predicted_class.getD "none"
    confidence := s.confidence.getD 0
    probability := intTrunc (s.confidence.getD 0 * 100)
    seconds := intTrunc s.timestamp_start
    t0 := intTrunc (s.timestamp_start * 1000)
    t1 := intTrunc (s.timestamp_end * 1000) }

/-- The event loop of `_format_results_for_flutter` (lines 309-330): segments
with an `error` key are skipped, and a segment yields an event only when its
predicted class is not `'none'` and its confidence is at least `0.3`. -/
def formatEvents (segs : List SegmentRecord) : List Event :=
  segs.filterMap fun s =>
    if s.error.isSome then none
    else if s.predicted_class.getD "none" = "none" ∨ s.confidence.getD 0 < 3 / 10 then none
    else some (eventOfRecord s)

/-- The `'summary'` dict of `process_audio_file` (lines 706-712 and 717-723). -/
structure Summary where
  total_segments : Nat
  successful_predictions : Nat
  class_distribution : List (String × Nat)
  average_confidence : ℚ
  dominant_class : Option String
  deriving DecidableEq

/-- The all-zero summary of lines 668-674 / 717-723. -/
def zeroSummary : Summary :=
  { total_segments := 0
    successful_predictions := 0
    class_distribution := []
    average_confidence := 0
    dominant_class := none }

/-- `class_counts[name] = class_counts.get(name, 0) + 1`: dict update preserving
first-insertion order. -/
def bumpCount : List (String × Nat) → String → List (String × Nat)
  | [], k => [(k, 1)]
  | (k2, n) :: rest, k =>
    if k2 = k then (k2, n + 1) :: rest else (k2, n) :: bumpCount rest k

/-- The summary statistics of `process_audio_file` (lines 694-723), computed
from the per-segment records: records without an `error` key are the successful
predictions; `average_confidence` is their total confidence divided by their
count (0.0 defaults for missing keys), and with no successful prediction the
explicit zero-valued summary of lines 717-723 is produced. -/
def summarize (preds : List SegmentRecord) : Summary :=
  if ((preds.filter fun p => p.error.isNone).isEmpty) then
    { total_segments := preds.length
      successful_predictions := 0
      class_distribution := []
      average_confidence := 0
      dominant_class := none }
  else
    { total_segments := preds.length
      successful_predictions := (preds.filter fun p => p.error.isNone).length
      class_distribution :=
        (preds.filter fun p => p.error.isNone).foldl
          (fun d p => bumpCount d (p.predicted_class.getD "unknown")) []
      average_confidence :=
        ((preds.filter fun p => p.error.isNone).map fun p => p.confidence.getD 0).sum /
          (((preds.filter fun p => p.error.isNone).length : ℚ))
      dominant_class :=
        (maxByValue
            ((preds.filter fun p => p.error.isNone).foldl
              (fun d p => bumpCount d (p.predicted_class.getD "unknown")) [])).map
          Prod.fst }

/-! ## Orchestrator: process_audio_file (audio_processor.py lines 628-740) and
CNNAnalysisService._format_results_for_flutter (cnn_analysis_service.py lines
305-360).  The stages that touch the file system or the model runtime appear as
abstract stage outcomes. -/

/-- The abstract environment a `process_audio_file` run sees: the outcome of
segmentation (a list of spectrogram paths, or the exception it raised), of model
loading, and of classifying each spectrogram path. -/
structure PipelineEnv where
  segStage : Except String (List Nat)
  modelLoad : Except String Unit
  classify : Nat → Except String (List (String × ℚ))

/-- The `results` dict of `process_audio_file`: `summary` is `none` while still
the initial empty dict `{}` of line 650. -/
structure RawReport where
  segments : List SegmentRecord
  summary : Option Summary
  errors : List String
  deriving DecidableEq

/-- `process_audio_file` (lines 628-740): a segmentation failure is caught and
returned as a report with one `Segmentation error: ...` entry (lines 658-663),
leaving `summary` as the initial empty dict; an empty path list yields the
zero summary (lines 665-675, unreachable from `segment_audio_file`, which raises
instead of returning an empty list); a model-loading failure is likewise caught
(lines 677-683); otherwise the predictions and their summary are filled in. -/
def process_audio_file (env : PipelineEnv) : RawReport :=
  match env.segStage with
  | .error e => { segments := [], summary := none, errors := ["Segmentation error: " ++ e] }
  | .ok paths =>
    if paths.isEmpty then
      { segments := [], summary := some zeroSummary, errors := ["No spectrograms generated"] }
    else
      match env.modelLoad with
      | .error e => { segments := [], summary := none, errors := ["Model loading error: " ++ e] }
      | .ok _ =>
        { segments := predict_spectrograms env.classify paths
          summary := some (summarize (predict_spectrograms env.classify paths))
          errors := [] }

/-- The Flutter-facing summary dict of `_format_results_for_flutter`
(lines 335-349), restricted to the fields drawn from the raw report (a missing
key in the raw `summary` dict defaults per the `.get(key, default)` calls). -/
structure FlutterSummary where
  segmentCount : Nat
  totalSegments : Nat
  successfulPredictions : Nat
  averageConfidence : ℚ
  classDistribution : List (String × Nat)
  hasEvents : Bool
  deriving DecidableEq

/-- The Flutter-facing report shape: `events`, `summary`, and the error list of
`processing_info`. -/
structure FlutterReport where
  events : List Event
  summary : FlutterSummary
  errors : List String
  deriving DecidableEq

/-- `CNNAnalysisService._format_results_for_flutter` (lines 305-360). -/
def formatForFlutter (r : RawReport) : FlutterReport :=
  { events := formatEvents r.segments
    summary :=
      { segmentCount := (formatEvents r.segments).length
        totalSegments := (r.summary.map Summary.total_segments).getD 0
        successfulPredictions := (r.summary.map Summary.successful_predictions).getD 0
        averageConfidence := (r.summary.map Summary.average_confidence).getD 0
        classDistribution := (r.summary.map Summary.class_distribution).getD []
        hasEvents := !(formatEvents r.segments).isEmpty }
    errors := r.errors }

/-- A classifier that labels every window `blocks` with confidence `0.9`. -/
def c3Clf : Nat → Except String (List (String × ℚ)) := fun _ => .ok [("blocks", 9 / 10)]

/-- Claim C3, failing input: with the default configuration
(`segment_duration = 3.0 s`, `overlap = 0.5`, so `step = 1500` ms) and a 7000 ms
clip, the three windows span `[0,3000)`, `[1500,4500)`, `[3000,6000)` ms, but
`predict_spectrograms` hard-codes `timestamp_start = i * 5.0`,
`timestamp_end = (i+1) * 5.0` seconds (lines 609-610), so the emitted events
span `[0,5000)`, `[5000,10000)`, `[10000,15000)` ms — not the windows' spans as
the claim (and spec) state. -/
theorem c3_event_spans_hardcoded_five_seconds :
    (segmentWindows 7000 3000 1500 1000).map SegWindow.start_ms = [0, 1500, 3000] ∧
      (segmentWindows 7000 3000 1500 1000).map SegWindow.end_ms = [3000, 4500, 6000] ∧
      (formatEvents (predict_spectrograms c3Clf [1, 2, 3])).map Event.t0 =
        [0, 5000, 10000] ∧
      (formatEvents (predict_spectrograms c3Clf [1, 2, 3])).map Event.t1 =
        [5000, 10000, 15000] ∧
      (5000 : Int) ≠ 1500 := by
  refine ⟨by rw [segmentWindows_default_scenario]; rfl,
    by rw [segmentWindows_default_scenario]; rfl, ?_, ?_, by decide⟩ <;>
    norm_num [predict_spectrograms, predictFrom, predictRecord, c3Clf, maxByValue,
      mkSuccessRecord, formatEvents, List.filterMap_cons, eventOfRecord, intTrunc, Rat.floor,
      show ("blocks" : String) ≠ "none" from by decide]

/-- Claim C4: in coarse mode, a successfully classified window (no `error` key,
a real predicted class) contributes exactly one event when its confidence is at
least `0.3` and no event at all when it is below `0.3`: replacing its
confidence by a sub-threshold value removes its event from the list and leaves
every other window's events untouched. -/
theorem c4_confidence_threshold (pre post : List SegmentRecord) (i : Nat)
    (preds : List (String × ℚ)) (cls : String) (conf : ℚ) (hcls : cls ≠ "none") :
    formatEvents (pre ++ mkSuccessRecord i preds cls conf :: post) =
      formatEvents pre ++
        (if 3 / 10 ≤ conf then [eventOfRecord (mkSuccessRecord i preds cls conf)] else []) ++
        formatEvents post := by
  unfold formatEvents
  rw [show pre ++ mkSuccessRecord i preds cls conf :: post =
      pre ++ [mkSuccessRecord i preds cls conf] ++ post by simp,
    List.filterMap_append, List.filterMap_append]
  rcases lt_or_le conf (3 / 10 : ℚ) with h | h
  · simp [mkSuccessRecord, hcls, h]
  · simp [mkSuccessRecord, hcls, not_lt.mpr h, h]

/-- Witness for C4 at a single successful window classified `blocks` with
confidence `0.5 ≥ 0.3`. -/
theorem c4_confidence_threshold_witness :
    (("blocks" : String) ≠ "none") ∧
      formatEvents ([] ++ mkSuccessRecord 0 [("blocks", 1 / 2)] "blocks" (1 / 2) :: []) =
        formatEvents [] ++
          (if (3 : ℚ) / 10 ≤ 1 / 2 then
              [eventOfRecord (mkSuccessRecord 0 [("blocks", 1 / 2)] "blocks" (1 / 2))]
            else []) ++
          formatEvents [] :=
  ⟨by decide, c4_confidence_threshold [] [] 0 [("blocks", 1 / 2)] "blocks" (1 / 2) (by decide)⟩

theorem predictRecord_segment_index (clf : Nat → Except String (List (String × ℚ)))
    (i p : Nat) : (predictRecord clf i p).segment_index = i + 1 := by
  unfold predictRecord
  rcases clf p with e | preds
  · rfl
  · rcases h : maxByValue preds with _ | ⟨cls, conf⟩ <;>
      simp [h, mkErrorRecord, mkSuccessRecord]

theorem predictFrom_length (clf : Nat → Except String (List (String × ℚ)))
    (paths : List Nat) : ∀ i0, (predictFrom clf i0 paths).length = paths.length := by
  induction paths with
  | nil => intro i0; rfl
  | cons p ps ih => intro i0; simp [predictFrom, ih (i0 + 1)]

theorem predictFrom_getElem? (clf : Nat → Except String (List (String × ℚ)))
    (paths : List Nat) : ∀ i0 i, (predictFrom clf i0 paths)[i]? =
      (paths[i]?).map fun p => predictRecord clf (i0 + i) p := by
  induction paths with
  | nil => intro i0 i; simp [predictFrom]
  | cons p ps ih =>
    intro i0 i
    cases i with
    | zero => simp [predictFrom]
    | succ j =>
      have harith : i0 + (j + 1) = i0 + 1 + j := by omega
      simp only [predictFrom, List.getElem?_cons_succ, ih (i0 + 1) j, harith]

theorem summarize_total_segments (preds : List SegmentRecord) :
    (summarize preds).total_segments = preds.length := by
  unfold summarize
  split <;> rfl

theorem summarize_successful_le (preds : List SegmentRecord) :
    (summarize preds).successful_predictions ≤ preds.length := by
  unfold summarize
  split
  · simp
  · simpa using List.length_filter_le _ preds

/-- Claim C10: `predict_spectrograms` returns exactly one record per input
spectrogram, in input order, tagged with 1-based `segment_index`; a window whose
classification raises becomes an error-tagged record rather than being dropped;
consequently the summary's `total_segments` equals the number of input
spectrograms and `successful_predictions` never exceeds it. -/
theorem c10_one_record_per_path (env : PipelineEnv) (paths : List Nat)
    (hseg : env.segStage = .ok paths) (hne : paths ≠ [])
    (hml : env.modelLoad = .ok ()) :
    (predict_spectrograms env.classify paths).length = paths.length ∧
      (∀ i, ((predict_spectrograms env.classify paths)[i]?).map SegmentRecord.segment_index =
        (paths[i]?).map fun _ => i + 1) ∧
      (∀ (i p : Nat) (e : String), paths[i]? = some p → env.classify p = .error e →
        ((predict_spectrograms env.classify paths)[i]?).map SegmentRecord.error =
          some (some e)) ∧
      (process_audio_file env).summary =
        some (summarize (predict_spectrograms env.classify paths)) ∧
      (summarize (predict_spectrograms env.classify paths)).total_segments = paths.length ∧
      (summarize (predict_spectrograms env.classify paths)).successful_predictions ≤
        paths.length := by
  have hempty : paths.isEmpty = false := by
    cases paths with
    | nil => exact absurd rfl hne
    | cons p ps => rfl
  have hlen : (predict_spectrograms env.classify paths).length = paths.length :=
    predictFrom_length _ _ 0
  refine ⟨hlen, ?_, ?_, ?_, (summarize_total_segments _).trans hlen,
    (summarize_successful_le _).trans_eq hlen⟩
  · intro i
    rw [predict_spectrograms, predictFrom_getElem?]
    cases h : paths[i]? with
    | none => rfl
    | some p => simp [predictRecord_segment_index]
  · intro i p e hp he
    rw [predict_spectrograms, predictFrom_getElem?, hp]
    simp [predictRecord, he, mkErrorRecord]
  · unfold process_audio_file
    rw [hseg, hml]
    simp [hempty]

/-- Environment for the C10 witness: three spectrograms, the second of which
fails classification (the spec's partial-failure scenario). -/
def c10Env : PipelineEnv :=
  { segStage := .ok [1, 2, 3]
    modelLoad := .ok ()
    classify := fun p =>
      if p = 2 then .error "Prediction failed" else .ok [("blocks", 1 / 2)] }

/-- Witness for C10 on a three-window run whose second window fails. -/
theorem c10_one_record_per_path_witness :
    (c10Env.segStage = .ok [1, 2, 3] ∧ ([1, 2, 3] : List Nat) ≠ [] ∧
        c10Env.modelLoad = .ok ()) ∧
      ((predict_spectrograms c10Env.classify [1, 2, 3]).length = [1, 2, 3].length ∧
        (∀ i, ((predict_spectrograms c10Env.classify [1, 2, 3])[i]?).map
            SegmentRecord.segment_index = (([1, 2, 3] : List Nat)[i]?).map fun _ => i + 1) ∧
        (∀ (i p : Nat) (e : String), ([1, 2, 3] : List Nat)[i]? = some p → c10Env.classify p = .error e →
          ((predict_spectrograms c10Env.classify [1, 2, 3])[i]?).map SegmentRecord.error =
            some (some e)) ∧
        (process_audio_file c10Env).summary =
          some (summarize (predict_spectrograms c10Env.classify [1, 2, 3])) ∧
        (summarize (predict_spectrograms c10Env.classify [1, 2, 3])).total_segments =
          [1, 2, 3].length ∧
        (summarize (predict_spectrograms c10Env.classify [1, 2, 3])).successful_predictions ≤
          [1, 2, 3].length) :=
  ⟨⟨rfl, by decide, rfl⟩,
    c10_one_record_per_path c10Env [1, 2, 3] rfl (by decide) rfl⟩

/-- Environment for the C6 counterexample: two windows whose classifications
succeed with confidences `0.9` and `0.1`; only the first emits an event. -/
def c6Env : PipelineEnv :=
  { segStage := .ok [1, 2]
    modelLoad := .ok ()
    classify := fun p =>
      if p = 1 then .ok [("blocks", 9 / 10)] else .ok [("blocks", 1 / 10)] }

/-- Claim C6, counterexample: with two successful windows of confidences `0.9`
and `0.1`, only the first emits an event (the second is below the `0.3`
threshold), yet the reported `average_confidence` is `(0.9 + 0.1)/2 = 0.5` —
the mean over all successful windows (audio_processor.py line 710), not the
mean `0.9` over the emitted events as the claim states. -/
theorem c6_counterexample :
    (formatForFlutter (process_audio_file c6Env)).summary.averageConfidence = 1 / 2 ∧
      (formatForFlutter (process_audio_file c6Env)).events.map Event.confidence = [9 / 10] ∧
      ¬ ((formatForFlutter (process_audio_file c6Env)).summary.averageConfidence =
          ((formatForFlutter (process_audio_file c6Env)).events.map Event.confidence).sum /
            ((((formatForFlutter (process_audio_file c6Env)).events.map
                Event.confidence).length : ℚ))) := by
  refine ⟨?_, ?_, ?_⟩ <;>
    norm_num [c6Env, process_audio_file, predict_spectrograms, predictFrom, predictRecord,
      maxByValue, mkSuccessRecord, summarize, bumpCount, formatForFlutter, formatEvents,
      List.filterMap_cons, eventOfRecord,
      show ("blocks" : String) ≠ "none" from by decide]

/-- Claim C6 as amended: in coarse mode `averageConfidence` is the arithmetic
mean of the confidences of all *successfully classified* windows — including
sub-threshold windows that emit no event — and `0` when no window classifies
successfully (the original claim said the mean over the *emitted events*). -/
theorem c6_average_confidence_amended (env : PipelineEnv) (paths : List Nat)
    (hseg : env.segStage = .ok paths) (hne : paths ≠ [])
    (hml : env.modelLoad = .ok ()) :
    (formatForFlutter (process_audio_file env)).summary.averageConfidence =
      if ((predict_spectrograms env.classify paths).filter fun p => p.error.isNone).isEmpty
        then 0
      else
        (((predict_spectrograms env.classify paths).filter fun p => p.error.isNone).map
            fun p => p.confidence.getD 0).sum /
          ((((predict_spectrograms env.classify paths).filter
              fun p => p.error.isNone).length : ℚ)) := by
  have hempty : paths.isEmpty = false := by
    cases paths with
    | nil => exact absurd rfl hne
    | cons p ps => rfl
  have hsum : (process_audio_file env).summary =
      some (summarize (predict_spectrograms env.classify paths)) := by
    unfold process_audio_file
    rw [hseg, hml]
    simp [hempty]
  show ((process_audio_file env).summary.map Summary.average_confidence).getD 0 = _
  rw [hsum]
  unfold summarize
  split
  · next h => simp [h]
  · next h => simp [h]

/-- Witness for the amended C6 at the two-window environment with confidences
`0.9` and `0.1`. -/
theorem c6_average_confidence_amended_witness :
    (c6Env.segStage = .ok [1, 2] ∧ ([1, 2] : List Nat) ≠ [] ∧ c6Env.modelLoad = .ok ()) ∧
      (formatForFlutter (process_audio_file c6Env)).summary.averageConfidence =
        (if ((predict_spectrograms c6Env.classify [1, 2]).filter
              fun p => p.error.isNone).isEmpty
          then 0
        else
          (((predict_spectrograms c6Env.classify [1, 2]).filter fun p => p.error.isNone).map
              fun p => p.confidence.getD 0).sum /
            ((((predict_spectrograms c6Env.classify [1, 2]).filter
                fun p => p.error.isNone).length : ℚ))) :=
  ⟨⟨rfl, by decide, rfl⟩,
    c6_average_confidence_amended c6Env [1, 2] rfl (by decide) rfl⟩

/-- Environment for the C7 counterexample: loading the waveform fails. -/
def c7Env : PipelineEnv :=
  { segStage := .error "Failed to load audio file"
    modelLoad := .ok ()
    classify := fun _ => .error "model never invoked" }

/-- Claim C7, counterexample: when segmentation fails, `process_audio_file`
returns empty segments and exactly one error entry, but its `summary` is still
the *initial empty dict* `{}` of line 650 (modelled as `none`) — not the claimed
"summary of zeros" (the explicit zero-valued summary that the empty-path branch
of lines 668-674 would set). -/
theorem c7_counterexample :
    (process_audio_file c7Env).segments = [] ∧
      (process_audio_file c7Env).errors =
        ["Segmentation error: " ++ "Failed to load audio file"] ∧
      (process_audio_file c7Env).errors.length = 1 ∧
      (process_audio_file c7Env).summary = none ∧
      (process_audio_file c7Env).summary ≠ some zeroSummary :=
  ⟨rfl, rfl, rfl, rfl, by simp [process_audio_file, c7Env]⟩

/-- Claim C7 as amended: a segmentation failure makes `process_audio_file`
catch the exception and return (never raise) a report with empty segments,
exactly one `Segmentation error: ...` entry, and a summary left as the initial
*empty* dict — whose numeric fields read as zero only through the defaulting
`.get(key, 0)` accessors used downstream. -/
theorem c7_segmentation_failure_amended (env : PipelineEnv) (e : String)
    (hseg : env.segStage = .error e) :
    process_audio_file env =
      { segments := [], summary := none, errors := ["Segmentation error: " ++ e] } := by
  unfold process_audio_file
  rw [hseg]

/-- Witness for the amended C7 at a concrete failed-load environment. -/
theorem c7_segmentation_failure_amended_witness :
    c7Env.segStage = .error "Failed to load audio file" ∧
      process_audio_file c7Env =
        { segments := [], summary := none,
          errors := ["Segmentation error: " ++ "Failed to load audio file"] } :=
  ⟨rfl, c7_segmentation_failure_amended c7Env "Failed to load audio file" rfl⟩

theorem padProbs_map_fst (preds : List ℚ) :
    ∀ (i : Nat) (cs : List String), (padProbs preds i cs).map Prod.fst = cs := by
  intro i cs
  induction cs generalizing i with
  | nil => rfl
  | cons c cs ih => simp [padProbs, ih (i + 1)]

theorem padProbs_getElem? (preds : List ℚ) :
    ∀ (i j : Nat) (cs : List String),
      (padProbs preds i cs)[j]? = (cs[j]?).map fun c => (c, preds.getD (i + j) 0) := by
  intro i j cs
  induction cs generalizing i j with
  | nil => simp [padProbs]
  | cons c cs ih =>
    cases j with
    | zero => simp [padProbs]
    | succ k =>
      have harith : i + (k + 1) = i + 1 + k := by omega
      simp only [padProbs, List.getElem?_cons_succ, ih (i + 1) k, harith]

/-- Claim C8, counterexample: an empty probability vector has a length that
differs from the configured class count (`0 ≠ 3`), yet `predict_image` raises
`ValueError` on it (audio_processor.py lines 573-574) instead of degrading
gracefully — the graceful zero-padding of lines 579-585 is only reached for a
non-empty vector. -/
theorem c8_counterexample :
    ([] : List ℚ).length ≠ defaultClassNames.length ∧
      predict_image defaultClassNames [] = .error "Invalid predictions from model" :=
  ⟨by decide, rfl⟩

/-- Claim C8 as amended: for every *non-empty* model output whose length
differs from the configured class count, `predict_image` degrades gracefully:
it returns (with the mismatch warning logged) a mapping whose keys are exactly
the configured class list, where class `j` receives entry `j` of the vector when
present and `0.0` otherwise — in particular every class at an index past the end
of the vector receives `0.0`. -/
theorem c8_mismatch_padding_amended (classNames : List String) (preds : List ℚ)
    (hne : preds ≠ []) (hmis : preds.length ≠ classNames.length) :
    predict_image classNames preds =
        .ok { probs := padProbs preds 0 classNames, mismatchWarned := true } ∧
      (padProbs preds 0 classNames).map Prod.fst = classNames ∧
      (∀ j : Nat, (padProbs preds 0 classNames)[j]? =
        (classNames[j]?).map fun c => (c, preds.getD j 0)) ∧
      ∀ j : Nat, preds.length ≤ j →
        ((padProbs preds 0 classNames)[j]?).map Prod.snd =
          (classNames[j]?).map fun _ => (0 : ℚ) := by
  have hempty : preds.isEmpty = false := by
    cases preds with
    | nil => exact absurd rfl hne
    | cons q qs => rfl
  have hget : ∀ j : Nat, (padProbs preds 0 classNames)[j]? =
      (classNames[j]?).map fun c => (c, preds.getD j 0) := by
    intro j
    rw [padProbs_getElem?]
    simp
  refine ⟨?_, padProbs_map_fst preds 0 classNames, hget, ?_⟩
  · unfold predict_image
    rw [hempty]
    simp [bne_iff_ne.mpr hmis]
  · intro j hj
    rw [hget j, List.getD_eq_default _ _ hj]
    cases classNames[j]? <;> rfl

/-- Witness for the amended C8: a single-entry vector against the default
three-class list. -/
theorem c8_mismatch_padding_amended_witness :
    (([1 / 2] : List ℚ) ≠ [] ∧ ([1 / 2] : List ℚ).length ≠ defaultClassNames.length) ∧
      (predict_image defaultClassNames [1 / 2] =
          .ok { probs := padProbs [1 / 2] 0 defaultClassNames, mismatchWarned := true } ∧
        (padProbs [1 / 2] 0 defaultClassNames).map Prod.fst = defaultClassNames ∧
        (∀ j : Nat, (padProbs [1 / 2] 0 defaultClassNames)[j]? =
          (defaultClassNames[j]?).map fun c => (c, ([1 / 2] : List ℚ).getD j 0)) ∧
        ∀ j : Nat, ([1 / 2] : List ℚ).length ≤ j →
          ((padProbs [1 / 2] 0 defaultClassNames)[j]?).map Prod.snd =
            (defaultClassNames[j]?).map fun _ => (0 : ℚ)) :=
  ⟨⟨by simp, by decide⟩,
    c8_mismatch_padding_amended defaultClassNames [1 / 2] (by simp) (by decide)⟩

/-! ## FeatureExtractor resize (AudioProcessor.resize_spectrogram, lines 177-208)

`resize_spectrogram` computes per-axis scale factors `target/current`, calls
`scipy.ndimage.zoom(spectrogram, (hs, ws), order=1)`, and crops the result to
`[:target_h, :target_w]`.  `zoom` produces an output of shape
`round(current * factor)` per axis and resamples with order-1 (bilinear)
interpolation, mapping output index `o` on an axis of output size `os` and input
size `is` to input coordinate `o * (is-1)/(os-1)` (0 when `os <= 1`).
Spectrograms are 2-D arrays, modelled as lists of rows of rationals.
-/

/-- Array access `A[i][j]` with the (never-exercised in-range) default `0`. -/
def getQ (A : List (List ℚ)) (i j : Nat) : ℚ := (A.getD i []).getD j 0

/-- Linear interpolation between `a` and `b` at parameter `t`. -/
def lerp (a b t : ℚ) : ℚ := a + t * (b - a)

/-- scipy's output-to-input coordinate map for one axis (`grid_mode=False`):
`o * (inSize - 1)/(outSize - 1)`, and `0` for a degenerate output axis. -/
def sampleCoord (inSize outSize : Nat) (o : Nat) : ℚ :=
  if outSize ≤ 1 then 0
  else (o : ℚ) * (((inSize : ℚ) - 1) / ((outSize : ℚ) - 1))

/-- Order-1 (bilinear) spline evaluation of the array at real coordinates. -/
def bilinearAt (A : List (List ℚ)) (x y : ℚ) : ℚ :=
  lerp
    (lerp (getQ A x.floor.toNat y.floor.toNat) (getQ A x.floor.toNat (y.floor.toNat + 1))
      (y - (y.floor.toNat : ℚ)))
    (lerp (getQ A (x.floor.toNat + 1) y.floor.toNat)
      (getQ A (x.floor.toNat + 1) (y.floor.toNat + 1)) (y - (y.floor.toNat : ℚ)))
    (x - (x.floor.toNat : ℚ))

/-- `scipy.ndimage.zoom` with order-1 interpolation, given the output shape. -/
def zoomBilinear (A : List (List ℚ)) (outH outW : Nat) : List (List ℚ) :=
  (List.range outH).map fun i =>
    (List.range outW).map fun j =>
      bilinearAt A (sampleCoord A.length outH i) (sampleCoord (A.headD []).length outW j)

/-- numpy's rounding of the per-axis output size `current * factor` (exact on
the integral values arising here, where the rounding mode cannot matter). -/
def roundScipy (q : ℚ) : Int := (q + 1 / 2).floor

/-- `AudioProcessor.resize_spectrogram` (lines 177-208): rejects an empty or
zero-sized array and non-positive scale factors, zooms by `target/current` per
axis with order-1 interpolation, and crops to `[:target_h, :target_w]`. -/
def resize_spectrogram (A : List (List ℚ)) (targetH targetW : Nat) :
    Option (List (List ℚ)) :=
  if A.length = 0 ∨ (A.headD []).length = 0 then none
  else if (targetH : ℚ) / (A.length : ℚ) ≤ 0 ∨
      (targetW : ℚ) / ((A.headD []).length : ℚ) ≤ 0 then none
  else
    some
      (((zoomBilinear A
              (roundScipy ((A.length : ℚ) * ((targetH : ℚ) / (A.length : ℚ)))).toNat
              (roundScipy (((A.headD []).length : ℚ) *
                ((targetW : ℚ) / ((A.headD []).length : ℚ)))).toNat).take
          targetH).map
        (List.take targetW))

theorem ratFloor_eq_floor (q : ℚ) : q.floor = ⌊q⌋ := by
  rw [Rat.floor_def]
  exact Rat.floor_def' q

theorem ratFloor_natCast (i : Nat) : ((i : ℚ)).floor = (i : Int) := by
  rw [ratFloor_eq_floor]
  exact Int.floor_natCast i

theorem roundScipy_natCast (t : Nat) : (roundScipy (t : ℚ)).toNat = t := by
  unfold roundScipy
  rw [ratFloor_eq_floor, add_comm, Int.floor_add_nat]
  norm_num

theorem zoomBilinear_length (A : List (List ℚ)) (outH outW : Nat) :
    (zoomBilinear A outH outW).length = outH := by
  simp [zoomBilinear]

theorem zoomBilinear_row_length (A : List (List ℚ)) (outH outW : Nat) :
    ∀ row ∈ zoomBilinear A outH outW, row.length = outW := by
  intro row hrow
  unfold zoomBilinear at hrow
  rw [List.mem_map] at hrow
  obtain ⟨i, _, rfl⟩ := hrow
  simp

/-- Claim C5: on any valid non-degenerate 2-D input (as the mel-spectrogram
stage produces: 128 mel rows, at least one frame column) and positive configured
target size, `resize_spectrogram` succeeds and its output shape is exactly
`(targetH, targetW)`, independent of the input dimensions. -/
theorem c5_resize_exact_target_shape (A : List (List ℚ)) (targetH targetW : Nat)
    (hA : 0 < A.length) (hw : 0 < (A.headD []).length)
    (hH : 0 < targetH) (hW : 0 < targetW) :
    ∃ B, resize_spectrogram A targetH targetW = some B ∧
      B.length = targetH ∧ ∀ row ∈ B, row.length = targetW := by
  have h1 : ¬(A.length = 0 ∨ (A.headD []).length = 0) := by omega
  have hhs : (0 : ℚ) < (targetH : ℚ) / (A.length : ℚ) :=
    div_pos (by exact_mod_cast hH) (by exact_mod_cast hA)
  have hws : (0 : ℚ) < (targetW : ℚ) / ((A.headD []).length : ℚ) :=
    div_pos (by exact_mod_cast hW) (by exact_mod_cast hw)
  have h2 : ¬((targetH : ℚ) / (A.length : ℚ) ≤ 0 ∨
      (targetW : ℚ) / ((A.headD []).length : ℚ) ≤ 0) := by
    push_neg
    exact ⟨hhs, hws⟩
  have hAne : ((A.length : ℚ)) ≠ 0 := Nat.cast_ne_zero.mpr hA.ne'
  have hwne : (((A.headD []).length : ℚ)) ≠ 0 := Nat.cast_ne_zero.mpr hw.ne'
  have hcH : (A.length : ℚ) * ((targetH : ℚ) / (A.length : ℚ)) = (targetH : ℚ) := by
    rw [← mul_div_assoc]
    exact mul_div_cancel_left₀ _ hAne
  have hcW : ((A.headD []).length : ℚ) *
      ((targetW : ℚ) / ((A.headD []).length : ℚ)) = (targetW : ℚ) := by
    rw [← mul_div_assoc]
    exact mul_div_cancel_left₀ _ hwne
  unfold resize_spectrogram
  rw [if_neg h1, if_neg h2, hcH, hcW, roundScipy_natCast, roundScipy_natCast]
  refine ⟨_, rfl, ?_, ?_⟩
  · rw [List.length_map, List.length_take, zoomBilinear_length, min_self]
  · intro row hrow
    rw [List.mem_map] at hrow
    obtain ⟨row2, hrow2, rfl⟩ := hrow
    have hmem : row2 ∈ zoomBilinear A targetH targetW := List.mem_of_mem_take hrow2
    rw [List.length_take, zoomBilinear_row_length _ _ _ _ hmem, min_self]

/-- Witness for C5: a 2x2 input resized to a 3x5 target. -/
theorem c5_resize_exact_target_shape_witness :
    ((0 : Nat) < ([[1, 2], [3, 4]] : List (List ℚ)).length ∧
        (0 : Nat) < (([[1, 2], [3, 4]] : List (List ℚ)).headD []).length ∧
        (0 : Nat) < 3 ∧ (0 : Nat) < 5) ∧
      ∃ B, resize_spectrogram ([[1, 2], [3, 4]] : List (List ℚ)) 3 5 = some B ∧
        B.length = 3 ∧ ∀ row ∈ B, row.length = 5 :=
  ⟨⟨by simp, by simp, by norm_num, by norm_num⟩,
    c5_resize_exact_target_shape [[1, 2], [3, 4]] 3 5 (by simp) (by simp) (by norm_num)
      (by norm_num)⟩

theorem sampleCoord_self (n i : Nat) (hi : i < n) : sampleCoord n n i = (i : ℚ) := by
  unfold sampleCoord
  split
  · next h =>
    have hz : i = 0 := by omega
    subst hz
    norm_num
  · next h =>
    have h2 : (2 : ℚ) ≤ (n : ℚ) := by exact_mod_cast (by omega : 2 ≤ n)
    have hne : ((n : ℚ) - 1) ≠ 0 := by linarith
    rw [div_self hne, mul_one]

theorem bilinearAt_natCast (A : List (List ℚ)) (i j : Nat) :
    bilinearAt A (i : ℚ) (j : ℚ) = getQ A i j := by
  unfold bilinearAt lerp
  rw [ratFloor_natCast, ratFloor_natCast, Int.toNat_natCast, Int.toNat_natCast]
  ring

theorem map_range_getD {α : Type} (l : List α) (d : α) :
    (List.range l.length).map (fun j => l.getD j d) = l := by
  apply List.ext_getElem (by simp)
  intro n h1 h2
  simp only [List.getElem_map, List.getElem_range]
  rw [List.getD_eq_getElem?_getD, List.getElem?_eq_getElem h2]
  rfl

/-- Zooming a rectangular array to its own shape is the identity: every sample
coordinate is integral, and order-1 interpolation at integral coordinates
returns the array entry itself. -/
theorem zoomBilinear_id (A : List (List ℚ)) (W : Nat)
    (hW : (A.headD []).length = W) (hrows : ∀ row ∈ A, row.length = W) :
    zoomBilinear A A.length W = A := by
  unfold zoomBilinear
  rw [hW]
  apply List.ext_getElem (by simp)
  intro n h1 h2
  simp only [List.getElem_map, List.getElem_range, List.length_map, List.length_range] at h1 ⊢
  rw [sampleCoord_self _ _ (by simpa using h1)]
  have hrow : A[n] ∈ A := List.getElem_mem h2
  have hrowlen : (A[n]).length = W := hrows _ hrow
  apply List.ext_getElem (by simp [hrowlen])
  intro m hm1 hm2
  simp only [List.getElem_map, List.getElem_range]
  rw [sampleCoord_self _ _ (by simpa using hm1), bilinearAt_natCast]
  unfold getQ
  rw [show A.getD n [] = A[n] by
      rw [List.getD_eq_getElem?_getD, List.getElem?_eq_getElem h2]
      rfl,
    List.getD_eq_getElem?_getD, List.getElem?_eq_getElem hm2]
  rfl

/-- Claim C9: resizing a (rectangular, non-degenerate) array that is already at
the target shape `(H, W)` back to `(H, W)` returns it unchanged — exactly, since
the embedding computes with exact rationals, hence a fortiori within any
floating-point tolerance. -/
theorem c9_resize_idempotent_at_target (A : List (List ℚ)) (H W : Nat)
    (hH : 0 < H) (hW : 0 < W) (hlen : A.length = H)
    (hrows : ∀ row ∈ A, row.length = W) :
    resize_spectrogram A H W = some A := by
  have hhead : (A.headD []).length = W := by
    cases A with
    | nil => simp at hlen; omega
    | cons r rs => exact hrows r (List.mem_cons_self r rs)
  have h1 : ¬(A.length = 0 ∨ (A.headD []).length = 0) := by omega
  have hAne : ((A.length : ℚ)) ≠ 0 := Nat.cast_ne_zero.mpr (by omega)
  have hwne : (((A.headD []).length : ℚ)) ≠ 0 := Nat.cast_ne_zero.mpr (by omega)
  have hhs : (0 : ℚ) < (H : ℚ) / (A.length : ℚ) :=
    div_pos (by exact_mod_cast hH) (by rw [hlen]; exact_mod_cast hH)
  have hws : (0 : ℚ) < (W : ℚ) / ((A.headD []).length : ℚ) :=
    div_pos (by exact_mod_cast hW) (by rw [hhead]; exact_mod_cast hW)
  have h2 : ¬((H : ℚ) / (A.length : ℚ) ≤ 0 ∨ (W : ℚ) / ((A.headD []).length : ℚ) ≤ 0) := by
    push_neg
    exact ⟨hhs, hws⟩
  have hcH : (A.length : ℚ) * ((H : ℚ) / (A.length : ℚ)) = (H : ℚ) := by
    rw [← mul_div_assoc]
    exact mul_div_cancel_left₀ _ hAne
  have hcW : ((A.headD []).length : ℚ) * ((W : ℚ) / ((A.headD []).length : ℚ)) = (W : ℚ) := by
    rw [← mul_div_assoc]
    exact mul_div_cancel_left₀ _ hwne
  unfold resize_spectrogram
  rw [if_neg h1, if_neg h2, hcH, hcW, roundScipy_natCast, roundScipy_natCast, ← hlen,
    zoomBilinear_id A W hhead hrows, hlen]
  have htake : A.take H = A := by
    rw [← hlen]
    exact List.take_length A
  rw [htake]
  have hmap : A.map (List.take W) = A.map id := by
    apply List.map_congr_left
    intro row hrow
    rw [← hrows row hrow]
    exact List.take_length row
  rw [hmap, List.map_id]

/-- Witness for C9 on a concrete 2x2 array resized to `(2, 2)`. -/
theorem c9_resize_idempotent_at_target_witness :
    ((0 : Nat) < 2 ∧ (0 : Nat) < 2 ∧ ([[1, 2], [3, 4]] : List (List ℚ)).length = 2 ∧
        ∀ row ∈ ([[1, 2], [3, 4]] : List (List ℚ)), row.length = 2) ∧
      resize_spectrogram ([[1, 2], [3, 4]] : List (List ℚ)) 2 2 =
        some ([[1, 2], [3, 4]] : List (List ℚ)) :=
  ⟨⟨by norm_num, by norm_num, by simp, by simp⟩,
    c9_resize_idempotent_at_target [[1, 2], [3, 4]] 2 2 (by norm_num) (by norm_num) (by simp)
      (by simp)⟩

end SpeechPortfolio
